import Mathlib

/-!
Shallow embedding of the PDF-to-Podcast demo frontend
(`src/frontend/__main__.py`): the configuration-editor handlers
(`read_chain_config`, `save_chain_config`, `reset_demo`, the undo binding)
and the podcast dispatcher (`generate_podcast`), with theorems checking the
specification's claims about them.
-/

namespace PdfToPodcast

/-- The on-disk state relevant to the Configuration Document: the contents of
the file at the fixed path `/project/models.json`. -/
structure FileSys where
  models : String
  deriving DecidableEq, Repr

/-- A single file I/O event on the Configuration Document path, recorded so
that frame properties ("this handler performs no file I/O") can be stated. -/
inductive FileOp where
  | read (contents : String)
  | write (contents : String)
  deriving DecidableEq, Repr

/-- Outcome of the external `json.loads` call on a text: parse success, or the
parser's error message. `json.loads` is Python standard-library code outside
this repository, so the embedding is parametric in it. -/
abbrev JsonLoads := String → Except String Unit

/-- `read_chain_config` (lines 146-149): opens `/project/models.json` for
reading and returns its text. Returns (result, file system after, I/O trace). -/
def read_chain_config (fs : FileSys) : String × FileSys × List FileOp :=
  (fs.models, fs, [FileOp.read fs.models])

/-- The handler bound to `demo.load(read_chain_config, outputs=editor)`
(line 151): literally `read_chain_config`. -/
def load_handler : FileSys → String × FileSys × List FileOp :=
  read_chain_config

/-- The handler bound to `undo_btn.click(read_chain_config, outputs=editor)`
(line 153): literally `read_chain_config`. -/
def undo_handler : FileSys → String × FileSys × List FileOp :=
  read_chain_config

/-- `reset_demo` (lines 156-159): returns the `_STARTING_CONFIG` snapshot
(captured at process start, line 88-89). It touches no file, so the file
system passes through unchanged and the I/O trace is empty. -/
def reset_demo (starting_config : String) (fs : FileSys) :
    String × FileSys × List FileOp :=
  (starting_config, fs, [])

/-- `save_chain_config` (lines 161-178): runs `json.loads` on the editor
text; on failure raises `SyntaxError("Error validating JSON syntax:\n...")`
without touching the file; on success opens the file in write mode and writes
the submitted text verbatim. Returns (raised-or-ok, file system after, I/O
trace). -/
def save_chain_config (json_loads : JsonLoads) (config_txt : String)
    (fs : FileSys) : Except String Unit × FileSys × List FileOp :=
  match json_loads config_txt with
  | .error err => (.error ("Error validating JSON syntax:\n" ++ err), fs, [])
  | .ok _ => (.ok (), { models := config_txt }, [FileOp.write config_txt])

/-- A session as the UI wires it: the `_STARTING_CONFIG` snapshot read once at
process start, the current file system, and the current editor text. -/
structure Session where
  starting_config : String
  fs : FileSys
  editor : String
  deriving DecidableEq, Repr

/-- Process start: `_STARTING_CONFIG` is read from `/project/models.json`
(lines 88-89) and `demo.load(read_chain_config, outputs=editor)` fills the
editor (line 151). -/
def startSession (fs : FileSys) : Session :=
  { starting_config := fs.models, fs := fs, editor := (read_chain_config fs).1 }

/-- User actions on the configuration editor during a session. -/
inductive SessionOp where
  | edit (txt : String)
  | save
  | undo
  | reset
  deriving DecidableEq, Repr

/-- One user action, as the event bindings dispatch it: `edit` replaces the
editor text; `save` runs `save_chain_config` on the editor text (inputs to
the handler, line 161); `undo` and `reset` write their handler's result back
into the editor (outputs bindings, lines 153 and 156). -/
def stepSession (jl : JsonLoads) (s : Session) : SessionOp → Session
  | .edit txt => { s with editor := txt }
  | .save => { s with fs := (save_chain_config jl s.editor s.fs).2.1 }
  | .undo => { s with editor := (undo_handler s.fs).1 }
  | .reset => { s with editor := (reset_demo s.starting_config s.fs).1 }

/-- Run a sequence of user actions. -/
def runSession (jl : JsonLoads) (s : Session) : List SessionOp → Session
  | [] => s
  | op :: ops => runSession jl (stepSession jl s op) ops

/-! ## The podcast dispatcher -/

/-- The two relevant process-environment entries consulted by
`generate_podcast`: `API_SERVICE_URL` (line 191) and
`SENDER_EMAIL_PASSWORD` (lines 195 and 201). `none` means absent. -/
structure Env where
  api_service_url : Option String
  sender_email_password : Option String
  deriving DecidableEq, Repr

/-- An uploaded-file argument as Gradio delivers it: either a lone path
(a Python `str`) or a list of paths. -/
inductive Upload where
  | single (path : String)
  | listed (paths : List String)
  deriving DecidableEq, Repr

/-- The normalization at lines 186-189: `if isinstance(target, str): target =
[target]`. -/
def normalize_upload : Upload → List String
  | .single p => [p]
  | .listed ps => ps

/-- Python `s.split(sep)[0]` for a non-empty separator: the text before the
first occurrence of `sep`, or all of `s` when `sep` does not occur. -/
def py_split_head (s sep : String) : String :=
  (s.splitOn sep).headD s

/-- The arguments of the single `email_demo.test_api` call (line 198). -/
structure ApiRequest where
  base_url : String
  target : List String
  context : List String
  email : List String
  monologue : Bool
  vdb : Bool
  deriving DecidableEq, Repr

/-- The arguments of one `email_demo.send_file_via_email` call (line 202). -/
structure EmailSend where
  path : String
  sender : String
  recipient : String
  deriving DecidableEq, Repr

/-- The `gr.update(value=..., visible=True)` return value (lines 203, 205). -/
structure GradioUpdate where
  value : String
  visible : Bool
  deriving DecidableEq, Repr

/-- What one successful `generate_podcast` call did: the request sent to the
pipeline API, the email-collaborator invocations, and the returned update. -/
structure DispatchResult where
  request : ApiRequest
  emailSends : List EmailSend
  result : GradioUpdate
  deriving DecidableEq, Repr

/-- The fixed output directory (lines 202-205). -/
def DEMO_OUTPUT_DIR : String := "/project/frontend/demo_outputs/"

/-- `generate_podcast` (lines 185-205). `filename` is the `str(uuid.uuid4())`
value freshly generated at line 194. `os.environ["API_SERVICE_URL"]` raises
`KeyError` when absent, before anything is dispatched; this is the `.error`
branch, which carries no `DispatchResult` and hence no pipeline request. -/
def generate_podcast (env : Env) (filename : String) (target context : Upload)
    (sender recipient : String) (settings : List String) :
    Except String DispatchResult :=
  let target := normalize_upload target
  let context := normalize_upload context
  match env.api_service_url with
  | none => .error "KeyError: API_SERVICE_URL"
  | some base_url =>
    let monologue := settings.contains "Monologue Only"
    let vdb := false
    let emailGate := recipient.length > 0 && env.sender_email_password.isSome
    let email := if emailGate then [recipient] else [filename ++ "@"]
    let req : ApiRequest :=
      { base_url := base_url, target := target, context := context,
        email := email, monologue := monologue, vdb := vdb }
    if emailGate then
      let path := DEMO_OUTPUT_DIR ++ py_split_head recipient "@" ++ "-output.mp3"
      .ok { request := req,
            emailSends := [{ path := path, sender := sender, recipient := recipient }],
            result := { value := path, visible := true } }
    else
      .ok { request := req,
            emailSends := [],
            result := { value := DEMO_OUTPUT_DIR ++ filename ++ "-output.mp3",
                        visible := true } }

/-- A concrete stand-in for `json.loads` used by witnesses: accepts exactly
the text `[]`. -/
def jlDemo : JsonLoads := fun s =>
  if s = "[]" then .ok () else .error "Expecting value: line 1 column 1 (char 0)"

/-- `runSession` never changes the `_STARTING_CONFIG` snapshot: no handler
writes to it after process start. -/
theorem runSession_starting_config (jl : JsonLoads) (ops : List SessionOp)
    (s : Session) :
    (runSession jl s ops).starting_config = s.starting_config := by
  induction ops generalizing s with
  | nil => rfl
  | cons op ops ih =>
    cases op <;> simp [runSession, stepSession, ih]

/-! ## Claims -/

/-- C1: `save_chain_config` raises exactly when `json.loads` fails on the
submitted text, and on the error branch the on-disk Configuration Document is
left unchanged, no write occurs, and the raised `SyntaxError` carries the
parse failure. -/
theorem save_rejects_invalid_json (jl : JsonLoads) (txt : String)
    (fs : FileSys) :
    ((save_chain_config jl txt fs).1 = .ok () ↔ jl txt = .ok ())
    ∧ (∀ e, jl txt = .error e →
        save_chain_config jl txt fs =
          (.error ("Error validating JSON syntax:\n" ++ e), fs, [])) := by
  constructor
  · cases h : jl txt with
    | ok u => cases u; simp [save_chain_config, h]
    | error e => simp [save_chain_config, h]
  · intro e he
    simp [save_chain_config, he]

/-- Witness for C1: the concrete parser rejects `not json`, so the save
raises and the file still holds `[]`. -/
theorem save_rejects_invalid_json_witness :
    save_chain_config jlDemo "not json" { models := "[]" } =
      (.error ("Error validating JSON syntax:\n" ++
        "Expecting value: line 1 column 1 (char 0)"), { models := "[]" }, []) :=
  (save_rejects_invalid_json jlDemo "not json" { models := "[]" }).2
    "Expecting value: line 1 column 1 (char 0)" (by rfl)

/-- C2: on a text that `json.loads` accepts, `save_chain_config` overwrites
the on-disk document with the submitted text verbatim, and a
`read_chain_config` on the resulting file system returns exactly that text. -/
theorem save_roundtrip (jl : JsonLoads) (txt : String) (fs : FileSys)
    (h : jl txt = .ok ()) :
    save_chain_config jl txt fs = (.ok (), { models := txt }, [FileOp.write txt])
    ∧ (read_chain_config (save_chain_config jl txt fs).2.1).1 = txt := by
  constructor
  · simp [save_chain_config, h]
  · simp [save_chain_config, h, read_chain_config]

/-- Witness for C2: saving `[]` over an old document, then loading, yields
`[]`. -/
theorem save_roundtrip_witness :
    (read_chain_config (save_chain_config jlDemo "[]" { models := "old" }).2.1).1
      = "[]" :=
  (save_roundtrip jlDemo "[]" { models := "old" } (by rfl)).2

/-- C4: after any sequence of edits, saves, undos and resets in a session
started on file system `fs0`, the reset handler returns exactly the text read
from disk at process start, leaves the file system unchanged, and performs no
file I/O (in particular, no disk read). -/
theorem reset_returns_startup_snapshot (jl : JsonLoads) (fs0 : FileSys)
    (ops : List SessionOp) :
    reset_demo (runSession jl (startSession fs0) ops).starting_config
        (runSession jl (startSession fs0) ops).fs =
      (fs0.models, (runSession jl (startSession fs0) ops).fs, []) := by
  rw [reset_demo, runSession_starting_config]
  rfl

/-- C5: the handler bound to the undo button and the handler bound to page
load are extensionally equal, and on every file state both return exactly the
current on-disk content. -/
theorem undo_equals_load (fs : FileSys) :
    undo_handler fs = load_handler fs ∧ (undo_handler fs).1 = fs.models :=
  ⟨rfl, rfl⟩

/-- C9: `load`, `undo` and `reset` leave the on-disk Configuration Document
unchanged and never write (`reset` performs no file I/O at all), while
`save_chain_config` does modify the file on some input — so save is the only
editor operation that can modify the document. -/
theorem save_only_writer (fs : FileSys) (start : String) :
    (load_handler fs).2.1 = fs
    ∧ (undo_handler fs).2.1 = fs
    ∧ (reset_demo start fs).2.1 = fs
    ∧ (∀ c, FileOp.write c ∉ (load_handler fs).2.2)
    ∧ (∀ c, FileOp.write c ∉ (undo_handler fs).2.2)
    ∧ (reset_demo start fs).2.2 = []
    ∧ ∃ jl txt, (save_chain_config jl txt fs).2.1 ≠ fs := by
  refine ⟨rfl, rfl, rfl, ?_, ?_, rfl, ?_⟩
  · intro c h
    simp [load_handler, read_chain_config] at h
  · intro c h
    simp [undo_handler, read_chain_config] at h
  · refine ⟨fun _ => .ok (), fs.models ++ "x", ?_⟩
    intro h
    have hm : fs.models ++ "x" = fs.models := congrArg FileSys.models h
    have hl := congrArg String.length hm
    simp [String.length_append] at hl
    exact absurd hl (by decide)

/-- Evaluation of `generate_podcast` when the email gate holds: the recipient
is non-empty and `SENDER_EMAIL_PASSWORD` is in the environment. -/
theorem generate_podcast_gate_true (env : Env) (filename : String)
    (target context : Upload) (sender recipient : String)
    (settings : List String) (url : String)
    (hurl : env.api_service_url = some url) (hr : 0 < recipient.length)
    (hp : env.sender_email_password.isSome = true) :
    generate_podcast env filename target context sender recipient settings =
      .ok { request := { base_url := url, target := normalize_upload target,
                         context := normalize_upload context,
                         email := [recipient],
                         monologue := settings.contains "Monologue Only",
                         vdb := false },
            emailSends := [{ path := DEMO_OUTPUT_DIR ++
                               py_split_head recipient "@" ++ "-output.mp3",
                             sender := sender, recipient := recipient }],
            result := { value := DEMO_OUTPUT_DIR ++
                          py_split_head recipient "@" ++ "-output.mp3",
                        visible := true } } := by
  simp [generate_podcast, hurl, hr, hp]

/-- Evaluation of `generate_podcast` when the email gate fails: the recipient
is empty or `SENDER_EMAIL_PASSWORD` is absent. -/
theorem generate_podcast_gate_false (env : Env) (filename : String)
    (target context : Upload) (sender recipient : String)
    (settings : List String) (url : String)
    (hurl : env.api_service_url = some url)
    (hg : recipient.length = 0 ∨ env.sender_email_password = none) :
    generate_podcast env filename target context sender recipient settings =
      .ok { request := { base_url := url, target := normalize_upload target,
                         context := normalize_upload context,
                         email := [filename ++ "@"],
                         monologue := settings.contains "Monologue Only",
                         vdb := false },
            emailSends := [],
            result := { value := DEMO_OUTPUT_DIR ++ filename ++ "-output.mp3",
                        visible := true } } := by
  rcases hg with h | h <;> simp [generate_podcast, hurl, h]

/-- C3: with the pipeline URL configured, a dispatch with a non-empty
recipient and the secret present names the artifact after the recipient's
local-part (text before the `@`) and invokes the email collaborator exactly
once with that path; with an empty recipient or absent secret, the artifact
is named from the freshly generated random identifier, the email collaborator
is never invoked, and the synthetic placeholder address (identifier followed
by `@`) is what is passed to the pipeline. -/
theorem dispatch_email_gating (env : Env) (filename : String)
    (target context : Upload) (sender recipient : String)
    (settings : List String) (url : String)
    (hurl : env.api_service_url = some url) :
    (0 < recipient.length → env.sender_email_password.isSome = true →
      ∃ r, generate_podcast env filename target context sender recipient
              settings = .ok r
        ∧ r.result.value = DEMO_OUTPUT_DIR ++
            py_split_head recipient "@" ++ "-output.mp3"
        ∧ r.emailSends = [{ path := DEMO_OUTPUT_DIR ++
                              py_split_head recipient "@" ++ "-output.mp3",
                            sender := sender, recipient := recipient }])
    ∧ (recipient.length = 0 ∨ env.sender_email_password = none →
      ∃ r, generate_podcast env filename target context sender recipient
              settings = .ok r
        ∧ r.result.value = DEMO_OUTPUT_DIR ++ filename ++ "-output.mp3"
        ∧ r.emailSends = []
        ∧ r.request.email = [filename ++ "@"]) := by
  constructor
  · intro hr hp
    exact ⟨_, generate_podcast_gate_true env filename target context sender
      recipient settings url hurl hr hp, rfl, rfl⟩
  · intro hg
    exact ⟨_, generate_podcast_gate_false env filename target context sender
      recipient settings url hurl hg, rfl, rfl, rfl⟩

/-- Fixed environment with pipeline URL and email secret, for witnesses. -/
def envDemo : Env :=
  { api_service_url := some "http://api-service:8002",
    sender_email_password := some "pw" }

/-- Fixed environment with pipeline URL but no email secret, for witnesses. -/
def envNoPw : Env :=
  { api_service_url := some "http://api-service:8002",
    sender_email_password := none }

/-- Fixed environment with no pipeline URL, for witnesses. -/
def envNoUrl : Env :=
  { api_service_url := none, sender_email_password := some "pw" }

/-- Witness for C3: recipient `alice@example.com` with the secret present
yields the artifact `alice-output.mp3` and one email send; with the secret
absent, the artifact is named from the identifier and no email is sent. -/
theorem dispatch_email_gating_witness :
    (∃ r, generate_podcast envDemo "uuid123" (Upload.single "t.pdf")
            (Upload.listed []) "bob@x.com" "alice@example.com" [] = .ok r
        ∧ r.result.value = DEMO_OUTPUT_DIR ++
            py_split_head "alice@example.com" "@" ++ "-output.mp3"
        ∧ r.emailSends = [{ path := DEMO_OUTPUT_DIR ++
                              py_split_head "alice@example.com" "@" ++ "-output.mp3",
                            sender := "bob@x.com",
                            recipient := "alice@example.com" }])
    ∧ (∃ r, generate_podcast envNoPw "uuid123" (Upload.single "t.pdf")
              (Upload.listed []) "bob@x.com" "alice@example.com" [] = .ok r
        ∧ r.result.value = DEMO_OUTPUT_DIR ++ "uuid123" ++ "-output.mp3"
        ∧ r.emailSends = []
        ∧ r.request.email = ["uuid123" ++ "@"]) := by
  have h1 := dispatch_email_gating envDemo "uuid123" (Upload.single "t.pdf")
    (Upload.listed []) "bob@x.com" "alice@example.com" []
    "http://api-service:8002" rfl
  have h2 := dispatch_email_gating envNoPw "uuid123" (Upload.single "t.pdf")
    (Upload.listed []) "bob@x.com" "alice@example.com" []
    "http://api-service:8002" rfl
  exact ⟨h1.1 (by decide) rfl, h2.2 (Or.inr rfl)⟩

/-- C6: with the pipeline URL configured, the request's monologue flag is
true exactly when `Monologue Only` is among the selected options, and the
vector-database flag is false for every input. -/
theorem dispatch_flags (env : Env) (filename : String)
    (target context : Upload) (sender recipient : String)
    (settings : List String) (url : String)
    (hurl : env.api_service_url = some url) :
    ∃ r, generate_podcast env filename target context sender recipient
            settings = .ok r
      ∧ (r.request.monologue = true ↔ "Monologue Only" ∈ settings)
      ∧ r.request.vdb = false := by
  by_cases hc : 0 < recipient.length ∧ env.sender_email_password.isSome = true
  · exact ⟨_, generate_podcast_gate_true env filename target context sender
      recipient settings url hurl hc.1 hc.2, List.elem_iff, rfl⟩
  · have hg : recipient.length = 0 ∨ env.sender_email_password = none := by
      rcases Nat.eq_zero_or_pos recipient.length with h | h
      · exact Or.inl h
      · refine Or.inr (Option.not_isSome_iff_eq_none.mp ?_)
        intro hs
        exact hc ⟨h, hs⟩
    exact ⟨_, generate_podcast_gate_false env filename target context sender
      recipient settings url hurl hg, List.elem_iff, rfl⟩

/-- Witness for C6: selecting `Monologue Only` produces a request with the
monologue flag true and the vector-database flag false. -/
theorem dispatch_flags_witness :
    ∃ r, generate_podcast envDemo "uuid123" (Upload.single "t.pdf")
            (Upload.listed []) "" "" ["Monologue Only"] = .ok r
      ∧ (r.request.monologue = true ↔ "Monologue Only" ∈ ["Monologue Only"])
      ∧ r.request.vdb = false :=
  dispatch_flags envDemo "uuid123" (Upload.single "t.pdf") (Upload.listed [])
    "" "" ["Monologue Only"] "http://api-service:8002" rfl

/-- C7: with `API_SERVICE_URL` absent from the environment, every generation
attempt fails with the `KeyError`, and no dispatch result — hence no pipeline
request — is ever produced. -/
theorem missing_api_url_fatal (env : Env) (filename : String)
    (target context : Upload) (sender recipient : String)
    (settings : List String) (h : env.api_service_url = none) :
    generate_podcast env filename target context sender recipient settings =
      .error "KeyError: API_SERVICE_URL"
    ∧ ∀ r, generate_podcast env filename target context sender recipient
        settings ≠ .ok r := by
  have he : generate_podcast env filename target context sender recipient
      settings = .error "KeyError: API_SERVICE_URL" := by
    simp [generate_podcast, h]
  refine ⟨he, fun r hok => ?_⟩
  rw [he] at hok
  exact Except.noConfusion hok

/-- Witness for C7: the environment lacking the URL makes the dispatcher
fail. -/
theorem missing_api_url_fatal_witness :
    generate_podcast envNoUrl "uuid123" (Upload.single "t.pdf")
        (Upload.listed []) "" "" [] = .error "KeyError: API_SERVICE_URL" :=
  (missing_api_url_fatal envNoUrl "uuid123" (Upload.single "t.pdf")
    (Upload.listed []) "" "" [] rfl).1

/-- C8: a lone uploaded path behaves exactly like the one-element list of
that path, for the target upload and for the context upload alike: the whole
dispatch outcome is identical. -/
theorem single_upload_normalization (env : Env) (filename : String)
    (target context : Upload) (p q : String) (sender recipient : String)
    (settings : List String) :
    generate_podcast env filename (Upload.single p) context sender recipient
        settings =
      generate_podcast env filename (Upload.listed [p]) context sender
        recipient settings
    ∧ generate_podcast env filename target (Upload.single q) sender recipient
        settings =
      generate_podcast env filename target (Upload.listed [q]) sender
        recipient settings :=
  ⟨rfl, rfl⟩

/-- C10: the email gate never looks at the sender field: with a non-empty
recipient and the secret present, the email collaborator is invoked (exactly
once, with the same artifact path) for an arbitrary sender and for the empty
sender alike. -/
theorem email_gating_ignores_sender (env : Env) (filename : String)
    (target context : Upload) (sender recipient : String)
    (settings : List String) (url : String)
    (hurl : env.api_service_url = some url) (hr : 0 < recipient.length)
    (hp : env.sender_email_password.isSome = true) :
    ∃ r r', generate_podcast env filename target context sender recipient
               settings = .ok r
      ∧ generate_podcast env filename target context "" recipient settings =
          .ok r'
      ∧ r.emailSends.length = 1
      ∧ r'.emailSends.length = 1
      ∧ r.emailSends.map EmailSend.path = r'.emailSends.map EmailSend.path :=
  ⟨_, _, generate_podcast_gate_true env filename target context sender
      recipient settings url hurl hr hp,
    generate_podcast_gate_true env filename target context "" recipient
      settings url hurl hr hp, rfl, rfl, rfl⟩

/-- Witness for C10: with an empty sender, a valid recipient and the secret
present, an email send is still attempted. -/
theorem email_gating_ignores_sender_witness :
    ∃ r r', generate_podcast envDemo "uuid123" (Upload.single "t.pdf")
               (Upload.listed []) "bob@x.com" "alice@example.com" [] = .ok r
      ∧ generate_podcast envDemo "uuid123" (Upload.single "t.pdf")
          (Upload.listed []) "" "alice@example.com" [] = .ok r'
      ∧ r.emailSends.length = 1
      ∧ r'.emailSends.length = 1
      ∧ r.emailSends.map EmailSend.path = r'.emailSends.map EmailSend.path :=
  email_gating_ignores_sender envDemo "uuid123" (Upload.single "t.pdf")
    (Upload.listed []) "bob@x.com" "alice@example.com" []
    "http://api-service:8002" rfl (by decide) rfl

end PdfToPodcast
